import Mathlib

/-!
Verification of router-type, Fireworks-adapter and debug-utility behaviour of
the litellm repository, shallowly embedded from:
  - src/litellm/types/router.py
  - src/litellm/llms/fireworks_ai/chat/transformation.py
  - src/litellm/proxy/common_utils/debug_utils.py
-/

namespace LitellmSpec

/-! ## Routing-strategy configuration (src/litellm/types/router.py) -/

/-- The admissible literals of `RouterConfig.routing_strategy`
(`router.py` lines 65-70). -/
def routerConfigRoutingStrategyLiterals : List String :=
  ["simple-shuffle", "least-busy", "usage-based-routing", "latency-based-routing"]

/-- The `RoutingStrategy` enum (`router.py` lines 704-710). -/
inductive RoutingStrategy where
  | LEAST_BUSY
  | LATENCY_BASED
  | COST_BASED
  | USAGE_BASED_ROUTING_V2
  | USAGE_BASED_ROUTING
  | PROVIDER_BUDGET_LIMITING
deriving DecidableEq, Repr

/-- The string value of each `RoutingStrategy` enum member. -/
def RoutingStrategy.value : RoutingStrategy → String
  | .LEAST_BUSY => "least-busy"
  | .LATENCY_BASED => "latency-based-routing"
  | .COST_BASED => "cost-based-routing"
  | .USAGE_BASED_ROUTING_V2 => "usage-based-routing-v2"
  | .USAGE_BASED_ROUTING => "usage-based-routing"
  | .PROVIDER_BUDGET_LIMITING => "provider-budget-routing"

/-- All string values of `RoutingStrategy` enum members. -/
def routingStrategyEnumValues : List String :=
  [RoutingStrategy.LEAST_BUSY.value,
   RoutingStrategy.LATENCY_BASED.value,
   RoutingStrategy.COST_BASED.value,
   RoutingStrategy.USAGE_BASED_ROUTING_V2.value,
   RoutingStrategy.USAGE_BASED_ROUTING.value,
   RoutingStrategy.PROVIDER_BUDGET_LIMITING.value]

/-- A routing-strategy string is admissible when it is a `RouterConfig`
literal or a `RoutingStrategy` enum value. -/
def admissibleRoutingStrategyValues : List String :=
  routerConfigRoutingStrategyLiterals ++ routingStrategyEnumValues

/-! ## Error taxonomy, retry and allowed-fails policies -/

/-- The error taxonomy of spec section 7: six classified kinds plus the
`Other`/unclassified catch-all. -/
inductive ErrorKind where
  | badRequest
  | authentication
  | timeout
  | rateLimit
  | contentPolicyViolation
  | internalServerError
  | other
deriving DecidableEq, Repr

/-- `RetryPolicy` (`router.py` lines 521-534): per-exception-type retry
counts, each `Optional[int] = None`. -/
structure RetryPolicy where
  BadRequestErrorRetries : Option Int := none
  AuthenticationErrorRetries : Option Int := none
  TimeoutErrorRetries : Option Int := none
  RateLimitErrorRetries : Option Int := none
  ContentPolicyViolationErrorRetries : Option Int := none
  InternalServerErrorRetries : Option Int := none
deriving DecidableEq, Repr

/-- A `RetryPolicy` with every field left at its default. -/
def defaultRetryPolicy : RetryPolicy := {}

/-- `AllowedFailsPolicy` (`router.py` lines 504-518): per-exception-type
allowed fails before cooldown, each `Optional[int] = None`. -/
structure AllowedFailsPolicy where
  BadRequestErrorAllowedFails : Option Int := none
  AuthenticationErrorAllowedFails : Option Int := none
  TimeoutErrorAllowedFails : Option Int := none
  RateLimitErrorAllowedFails : Option Int := none
  ContentPolicyViolationErrorAllowedFails : Option Int := none
  InternalServerErrorAllowedFails : Option Int := none
deriving DecidableEq, Repr

/-- An `AllowedFailsPolicy` with every field left at its default. -/
def defaultAllowedFailsPolicy : AllowedFailsPolicy := {}

/-- The `RetryPolicy` field holding the retry count of an error kind, when
such a field exists: the class declares exactly six fields, one per
classified kind, and none for the `Other` catch-all. -/
def retryFieldFor (p : RetryPolicy) : ErrorKind → Option (Option Int)
  | .badRequest => some p.BadRequestErrorRetries
  | .authentication => some p.AuthenticationErrorRetries
  | .timeout => some p.TimeoutErrorRetries
  | .rateLimit => some p.RateLimitErrorRetries
  | .contentPolicyViolation => some p.ContentPolicyViolationErrorRetries
  | .internalServerError => some p.InternalServerErrorRetries
  | .other => none

/-- The `AllowedFailsPolicy` field holding the allowed-fails threshold of an
error kind, when such a field exists: six fields, none for `Other`. -/
def allowedFailsFieldFor (p : AllowedFailsPolicy) : ErrorKind → Option (Option Int)
  | .badRequest => some p.BadRequestErrorAllowedFails
  | .authentication => some p.AuthenticationErrorAllowedFails
  | .timeout => some p.TimeoutErrorAllowedFails
  | .rateLimit => some p.RateLimitErrorAllowedFails
  | .contentPolicyViolation => some p.ContentPolicyViolationErrorAllowedFails
  | .internalServerError => some p.InternalServerErrorAllowedFails
  | .other => none

/-! ## Usage-counter cache keys (`RouterCacheEnum`, `router.py` lines 713-717) -/

/-- `RouterCacheEnum` (`router.py` lines 713-717): the four usage-counter
cache-key templates, one per window kind. -/
inductive RouterCacheEnum where
  | TPM
  | RPM
  | TPD
  | RPD
deriving DecidableEq, Repr

/-- The template string of each `RouterCacheEnum` member, verbatim from the
source. -/
def RouterCacheEnum.value : RouterCacheEnum → String
  | .TPM => "global_router:{id}:{model}:tpm:{current_minute}"
  | .RPM => "global_router:{id}:{model}:rpm:{current_minute}"
  | .TPD => "global_router:{id}:{model}:tpd:{current_day}"
  | .RPD => "global_router:{id}:{model}:rpd:{current_day}"

/-- A segment of a parsed format template: a literal character or a named
replacement field. -/
inductive FmtSeg where
  | lit (c : Char)
  | field (name : List Char)
deriving DecidableEq, Repr

mutual

/-- Model of Python `str.format` template parsing, restricted to the plain
named fields used by the `RouterCacheEnum` templates: `{` opens a field,
everything up to the matching `}` is the field name, all other characters
are literals; an unterminated field is a parse error (`none`). -/
def parseFmt : List Char → Option (List FmtSeg)
  | [] => some []
  | c :: rest =>
    if c = '{' then parseFmtField [] rest
    else (parseFmt rest).map (fun segs => .lit c :: segs)
termination_by l => l.length

/-- Parsing state inside a `{…}` replacement field: `acc` holds the name
characters read so far. -/
def parseFmtField (acc : List Char) : List Char → Option (List FmtSeg)
  | [] => none
  | c :: rest =>
    if c = '}' then (parseFmt rest).map (fun segs => .field acc :: segs)
    else parseFmtField (acc ++ [c]) rest
termination_by l => l.length

end

/-- The keyword arguments supplied when formatting a `RouterCacheEnum`
template: the router id, the model name, and the current minute / day
bucket identifiers. -/
structure CacheKeyArgs where
  id : String
  model : String
  current_minute : String
  current_day : String

/-- Look up a replacement-field name among the `CacheKeyArgs`; an unknown
name is a `KeyError` (`none`). -/
def fmtLookup (args : CacheKeyArgs) (name : List Char) : Option String :=
  if name = "id".data then some args.id
  else if name = "model".data then some args.model
  else if name = "current_minute".data then some args.current_minute
  else if name = "current_day".data then some args.current_day
  else none

/-- Render a parsed template: literals pass through, fields are replaced by
the looked-up value verbatim. -/
def renderFmt (args : CacheKeyArgs) : List FmtSeg → Option (List Char)
  | [] => some []
  | .lit c :: rest => (renderFmt args rest).map (fun l => c :: l)
  | .field n :: rest =>
    match fmtLookup args n with
    | some v => (renderFmt args rest).map (fun l => v.data ++ l)
    | none => none

/-- Python `template.format(id=…, model=…, current_minute=…, current_day=…)`
as used on the `RouterCacheEnum` templates. -/
def pyFormat (t : String) (args : CacheKeyArgs) : Option String :=
  match parseFmt t.data with
  | some segs => (renderFmt args segs).map String.mk
  | none => none

/-- The usage-key scheme of spec section 6:
`{scope}:{router_id}:{model}:{window_kind}:{window_bucket}`. -/
def specUsageKeyScheme (scope router_id model window_kind window_bucket : String) :
    String :=
  scope ++ ":" ++ router_id ++ ":" ++ model ++ ":" ++ window_kind ++ ":" ++
    window_bucket

/-! ## Fireworks model-name normalization
(src/litellm/llms/fireworks_ai/chat/transformation.py, transform_request) -/

/-- Python `str.startswith` on explicit character lists:
`listStartsWith s p` is true when `p` is an initial segment of `s`. -/
def listStartsWith : List Char → List Char → Bool
  | _, [] => true
  | [], _ :: _ => false
  | a :: as, b :: bs => a == b && listStartsWith as bs

/-- Python `model.startswith(p)`. -/
def pyStartsWith (s p : String) : Bool :=
  listStartsWith s.data p.data

/-- The model-name step of `FireworksAIConfig.transform_request`
(`transformation.py` lines 249-250): prepend `accounts/fireworks/models/`
unless the name already starts with `accounts/`. -/
def fireworksNormalizeModel (model : String) : String :=
  if pyStartsWith model "accounts/" then model
  else "accounts/fireworks/models/" ++ model

/-! ## Router errors (`RouterErrors`, `RouterRateLimitError`) -/

/-- `RouterErrors` (`router.py` lines 489-501): enum of router-specific
error messages. -/
inductive RouterErrors where
  | user_defined_ratelimit_error
  | no_deployments_available
  | no_deployments_with_tag_routing
  | no_deployments_with_provider_budget_routing
deriving DecidableEq, Repr

/-- The string value of each `RouterErrors` member, verbatim from the
source. -/
def RouterErrors.value : RouterErrors → String
  | .user_defined_ratelimit_error => "Deployment over user-defined ratelimit."
  | .no_deployments_available => "No deployments available for selected model"
  | .no_deployments_with_tag_routing =>
      "Not allowed to access model due to tags configuration"
  | .no_deployments_with_provider_budget_routing =>
      "No deployments available - crossed budget"

/-- Python `str(bool)`. -/
def pyBoolStr : Bool → String
  | true => "True"
  | false => "False"

/-- The ASCII single-quote character used by Python `repr` of strings. -/
def pyQuoteChar : Char := Char.ofNat 39

/-- Python `repr` of a plain string (no escaping needed for the deployment
ids appearing in cooldown lists). -/
def pyStrRepr (s : String) : String :=
  String.singleton pyQuoteChar ++ s ++ String.singleton pyQuoteChar

/-- Python `str` of a list of strings, as interpolated by an f-string. -/
def pyStrListRepr (l : List String) : String :=
  "[" ++ String.intercalate ", " (l.map pyStrRepr) ++ "]"

/-- `RouterRateLimitError` (`router.py` lines 676-689): the
no-deployments-available error raised when the candidate set is empty. -/
structure RouterRateLimitError where
  model : String
  cooldown_time : Float
  enable_pre_call_checks : Bool
  cooldown_list : List String
  message : String

/-- `RouterRateLimitError.__init__`: stores the model, cooldown time,
pre-call-check flag and cooldown list, and builds the message
`f"{RouterErrors.no_deployments_available.value}, Try again in
{cooldown_time} seconds. Passed model={model}.
pre-call-checks={enable_pre_call_checks}, cooldown_list={cooldown_list}"`. -/
def mkRouterRateLimitError (model : String) (cooldown_time : Float)
    (enable_pre_call_checks : Bool) (cooldown_list : List String) :
    RouterRateLimitError :=
  { model := model
    cooldown_time := cooldown_time
    enable_pre_call_checks := enable_pre_call_checks
    cooldown_list := cooldown_list
    message := RouterErrors.no_deployments_available.value ++ ", Try again in " ++
      toString cooldown_time ++ " seconds. Passed model=" ++ model ++
      ". pre-call-checks=" ++ pyBoolStr enable_pre_call_checks ++
      ", cooldown_list=" ++ pyStrListRepr cooldown_list }

/-- `pat` occurs as a contiguous substring of `s`. -/
def strContains (pat s : String) : Prop :=
  ∃ l r, s.data = l ++ pat.data ++ r

/-! ## Active-task bookkeeping
(src/litellm/proxy/common_utils/debug_utils.py, get_active_tasks_stats) -/

/-- An asyncio task as observed by `get_active_tasks_stats`: whether it is
done, and the human-readable name derived from its coroutine. -/
structure TaskInfo where
  done : Bool
  name : String

/-- The fixed hard ceiling on tasks inspected (`debug_utils.py` line 23). -/
def MAX_TASKS_TO_CHECK : Nat := 5000

/-- One `counter[name] += 1` step of a `collections.Counter` held as an
insertion-ordered association list. -/
def counterIncr : List (String × Nat) → String → List (String × Nat)
  | [], k => [(k, 1)]
  | (k', v) :: rest, k =>
    if k' = k then (k', v + 1) :: rest else (k', v) :: counterIncr rest k

/-- `get_active_tasks_stats` (`debug_utils.py` lines 16-48): filter out done
tasks, count the first `MAX_TASKS_TO_CHECK` active tasks by coroutine name,
and return the uncapped total together with the per-name counts. -/
def getActiveTasksStats (tasks : List TaskInfo) : Nat × List (String × Nat) :=
  let active := tasks.filter (fun t => !t.done)
  let counter :=
    (active.take MAX_TASKS_TO_CHECK).foldl (fun c t => counterIncr c t.name) []
  (active.length, counter)

/-! ## ModelInfo and Deployment construction (`router.py`) -/

/-- Modelled from the spec: "`id` — unique, generated if absent".
`uuid.uuid4()` (Python standard library, not part of this repository)
draws a fresh universally-unique identifier; it is modelled as an
injective fresh-identifier supply indexed by a generator state that is
advanced on every draw. -/
def uuid4String (gen : Nat) : String :=
  String.mk (List.replicate (gen + 1) 'u')

/-- `ModelInfo` (`router.py` lines 95-127): pydantic record whose `id` is
always present as a string after construction. The four custom-pricing
attributes that `Deployment.__init__` may set through `extra="allow"` are
modelled as optional fields, absent = `none`. -/
structure ModelInfo where
  id : String
  db_model : Bool := false
  base_model : Option String := none
  tier : Option String := none
  team_id : Option String := none
  team_public_model_name : Option String := none
  input_cost_per_token : Option Float := none
  output_cost_per_token : Option Float := none
  input_cost_per_character : Option Float := none
  output_cost_per_character : Option Float := none

/-- `ModelInfo.__init__` (`router.py` lines 120-125): a missing id is
replaced by a freshly generated UUID string, an integer id is converted to
its string form, a string id is stored unchanged. The generator state is
threaded explicitly and advanced only when a UUID is drawn. -/
def ModelInfo.init (id : Option (String ⊕ Int)) (gen : Nat) : ModelInfo × Nat :=
  match id with
  | none => ({ id := uuid4String gen }, gen + 1)
  | some (Sum.inr i) => ({ id := toString i }, gen)
  | some (Sum.inl s) => ({ id := s }, gen)

/-- `LiteLLM_Params` (`router.py` lines 287-350, inheriting the fields of
`GenericLiteLLMParams` and `CustomPricingLiteLLMParams`): the fields the
claims touch, each `Optional` defaulting to `None`. The two per-character
cost parameters are not declared fields but extra attributes admitted by
`extra="allow"`, modelled as optional fields, absent = `none`. -/
structure LiteLLM_Params where
  model : String
  custom_llm_provider : Option String := none
  tpm : Option Int := none
  rpm : Option Int := none
  tpd : Option Int := none
  rpd : Option Int := none
  api_key : Option String := none
  api_base : Option String := none
  max_retries : Option Int := none
  max_budget : Option Float := none
  budget_duration : Option String := none
  input_cost_per_token : Option Float := none
  output_cost_per_token : Option Float := none
  input_cost_per_character : Option Float := none
  output_cost_per_character : Option Float := none

/-- `SPECIAL_MODEL_INFO_PARAMS` (`router.py` lines 422-427). -/
def SPECIAL_MODEL_INFO_PARAMS : List String :=
  ["input_cost_per_token", "output_cost_per_token",
   "input_cost_per_character", "output_cost_per_character"]

/-- One iteration of the `Deployment.__init__` loop (`router.py` lines
449-456): `field = getattr(litellm_params, key, None); if field is not
None: setattr(model_info, key, field)`. -/
def copySpecialParam (lp : LiteLLM_Params) (mi : ModelInfo) (key : String) :
    ModelInfo :=
  if key = "input_cost_per_token" then
    match lp.input_cost_per_token with
    | some v => { mi with input_cost_per_token := some v }
    | none => mi
  else if key = "output_cost_per_token" then
    match lp.output_cost_per_token with
    | some v => { mi with output_cost_per_token := some v }
    | none => mi
  else if key = "input_cost_per_character" then
    match lp.input_cost_per_character with
    | some v => { mi with input_cost_per_character := some v }
    | none => mi
  else if key = "output_cost_per_character" then
    match lp.output_cost_per_character with
    | some v => { mi with output_cost_per_character := some v }
    | none => mi
  else mi

/-- `Deployment` (`router.py` lines 430-463). -/
structure Deployment where
  model_name : String
  litellm_params : LiteLLM_Params
  model_info : ModelInfo

/-- `Deployment.__init__` (`router.py` lines 437-463): a missing
`model_info` becomes `ModelInfo()` (with a generated id), then every
`SPECIAL_MODEL_INFO_PARAMS` key that is non-`None` on `litellm_params` is
copied onto `model_info`. -/
def Deployment.init (model_name : String) (litellm_params : LiteLLM_Params)
    (model_info : Option ModelInfo) (gen : Nat) : Deployment × Nat :=
  let start := match model_info with
    | none => ModelInfo.init none gen
    | some m => (m, gen)
  let mi := SPECIAL_MODEL_INFO_PARAMS.foldl (copySpecialParam litellm_params)
    start.1
  ({ model_name := model_name, litellm_params := litellm_params,
     model_info := mi }, start.2)

/-! ## ModelGroupInfo construction (`router.py` lines 553-591) -/

/-- The keyword data passed to `ModelGroupInfo(...)`: every field the
claims touch is optional on input (absent or explicit `None` = `none`).
For `mode` the outer option distinguishes an absent key (pydantic default
`"chat"`) from an explicit `None`. -/
structure ModelGroupInfoData where
  model_group : String
  providers : List String := []
  tpm : Option Int := none
  rpm : Option Int := none
  tpd : Option Int := none
  rpd : Option Int := none
  mode : Option (Option String) := none
  supports_parallel_function_calling : Option Bool := none
  supports_vision : Option Bool := none
  supports_web_search : Option Bool := none
  supports_url_context : Option Bool := none
  supports_reasoning : Option Bool := none
  supports_function_calling : Option Bool := none

/-- `ModelGroupInfo`: the constructed record; every capability flag is a
definite boolean. -/
structure ModelGroupInfo where
  model_group : String
  providers : List String
  tpm : Option Int
  rpm : Option Int
  tpd : Option Int
  rpd : Option Int
  mode : Option String
  supports_parallel_function_calling : Bool
  supports_vision : Bool
  supports_web_search : Bool
  supports_url_context : Bool
  supports_reasoning : Bool
  supports_function_calling : Bool

/-- The `ModelGroupInfo.__init__` loop body (`router.py` lines 588-590):
`if field_type == bool and data.get(field_name) is None:
data[field_name] = False`. -/
def boolNoneToFalse : Option Bool → Option Bool
  | none => some false
  | some b => some b

/-- `ModelGroupInfo.__init__` (`router.py` lines 587-591): rewrite every
`bool`-typed field that is `None`/absent to `False`, then construct the
pydantic record (whose `bool` fields default to `False` and whose `mode`
defaults to `"chat"`). -/
def ModelGroupInfo.init (data : ModelGroupInfoData) : ModelGroupInfo :=
  let data' := { data with
    supports_parallel_function_calling :=
      boolNoneToFalse data.supports_parallel_function_calling
    supports_vision := boolNoneToFalse data.supports_vision
    supports_web_search := boolNoneToFalse data.supports_web_search
    supports_url_context := boolNoneToFalse data.supports_url_context
    supports_reasoning := boolNoneToFalse data.supports_reasoning
    supports_function_calling := boolNoneToFalse data.supports_function_calling }
  { model_group := data'.model_group
    providers := data'.providers
    tpm := data'.tpm
    rpm := data'.rpm
    tpd := data'.tpd
    rpd := data'.rpd
    mode := match data'.mode with
      | none => some "chat"
      | some m => m
    supports_parallel_function_calling :=
      data'.supports_parallel_function_calling.getD false
    supports_vision := data'.supports_vision.getD false
    supports_web_search := data'.supports_web_search.getD false
    supports_url_context := data'.supports_url_context.getD false
    supports_reasoning := data'.supports_reasoning.getD false
    supports_function_calling := data'.supports_function_calling.getD false }

/-! ## Fireworks response transformation
(src/litellm/llms/fireworks_ai/chat/transformation.py, transform_response) -/

/-- Modelled from the spec: `RESPONSE_FORMAT_TOOL_NAME` lives in
`litellm/constants.py`, outside the provided sources; its exact value does
not affect the claims settled here. -/
def RESPONSE_FORMAT_TOOL_NAME : String := "json_tool_call"

/-- A tool-call function payload (`litellm.types.utils.Function`). -/
structure FWFunction where
  name : String
  arguments : Option String := none

/-- Message content of a parsed completion response, together with whether
Python `json.loads(content)` parses it into a `Function` payload: `raw`
content does not, `fnJson` content does. -/
inductive FWContent where
  | raw (s : String)
  | fnJson (fn : FWFunction)

/-- `ChatCompletionMessageToolCall`. -/
structure FWToolCall where
  function : FWFunction
  id : String
  type : String

/-- A choice message of a completion response. -/
structure FWMessage where
  content : Option FWContent
  tool_calls : Option (List FWToolCall)

/-- A choice of a completion response. -/
structure FWChoice where
  message : FWMessage

/-- The JSON body of a successful adapter response, as consumed by
`ModelResponse(**completion_response)`. -/
structure CompletionResponse where
  model : Option String
  choices : List FWChoice

/-- The raw adapter HTTP response: status code, text, headers, and the
result of `raw_response.json()` — `.error e` is the parse exception whose
message is `e`. -/
structure RawResponse where
  status_code : Nat
  text : String
  headers : List (String × String)
  parsedJson : Except String CompletionResponse

/-- `FireworksAIException` (from `..common_utils`): the classified provider
exception raised by the Fireworks adapter. -/
structure FireworksAIException where
  message : String
  status_code : Nat
  headers : Option (List (String × String))

/-- A tool of the request's `optional_params["tools"]`, carrying the
function name looked at by the tool-call fixup. -/
structure FWRequestTool where
  function_name : String

/-- The transformed `ModelResponse` returned on success.
`get_response_headers` (outside the provided sources) is modelled as a
header passthrough; it does not affect the claims settled here. -/
structure FWModelResponse where
  model : Option String
  choices : List FWChoice
  hidden_additional_headers : List (String × String)

/-- `FireworksAIConfig._handle_message_content_with_tool_calls`
(`transformation.py` lines 265-294): when the request declared tools, the
message has content but no tool calls, and the content parses as a
`Function` whose name is a declared tool (and not the response-format
tool), move the content into a synthesized tool call; any failure inside
the `try` block leaves the message unchanged. -/
def handleMessageContentWithToolCalls (msg : FWMessage)
    (tools : Option (List FWRequestTool)) (gen : Nat) : FWMessage :=
  match tools, msg.content, msg.tool_calls with
  | some ts, some c, none =>
    match c with
    | .fnJson fn =>
      if fn.name ≠ RESPONSE_FORMAT_TOOL_NAME ∧
          fn.name ∈ ts.map (fun t => t.function_name) then
        { msg with
          tool_calls := some [FWToolCall.mk fn (uuid4String gen) "function"]
          content := none }
      else msg
    | .raw _ => msg
  | _, _, _ => msg

/-- The exception raised when `raw_response.json()` fails
(`transformation.py` lines 319-329): message
`"Unable to get json response - {e}, Original Response: {text}"`, the
original status code, and the original headers. -/
def fireworksJsonDecodeException (e : String) (raw : RawResponse) :
    FireworksAIException :=
  { message := "Unable to get json response - " ++ e ++
      ", Original Response: " ++ raw.text
    status_code := raw.status_code
    headers := some raw.headers }

/-- `FireworksAIConfig.transform_response` (`transformation.py` lines
296-351): a body that cannot be parsed as JSON raises a
`FireworksAIException`; a parsed body is turned into a `ModelResponse`
whose model gets the `fireworks_ai/` front appended and whose choice
messages go through the tool-call fixup. -/
def transformResponse (raw : RawResponse) (tools : Option (List FWRequestTool))
    (gen : Nat) : Except FireworksAIException FWModelResponse :=
  match raw.parsedJson with
  | .error e => .error (fireworksJsonDecodeException e raw)
  | .ok cr =>
    let model' := match cr.model with
      | some m => some ("fireworks_ai/" ++ m)
      | none => none
    let choices' := cr.choices.map (fun ch =>
      { message := handleMessageContentWithToolCalls ch.message tools gen })
    .ok { model := model', choices := choices',
          hidden_additional_headers := raw.headers }

end LitellmSpec

namespace LitellmSpec

/-- C1: every routing strategy enumerated in spec section 4.4 —
simple-shuffle, least-busy, latency-based, usage-based, usage-based-v2,
cost-based and provider-budget-routing — has a corresponding selectable
value among the `RouterConfig.routing_strategy` literals together with the
`RoutingStrategy` enum values. -/
theorem routing_strategies_all_admissible :
    "simple-shuffle" ∈ admissibleRoutingStrategyValues ∧
    "least-busy" ∈ admissibleRoutingStrategyValues ∧
    "latency-based-routing" ∈ admissibleRoutingStrategyValues ∧
    "usage-based-routing" ∈ admissibleRoutingStrategyValues ∧
    "usage-based-routing-v2" ∈ admissibleRoutingStrategyValues ∧
    "cost-based-routing" ∈ admissibleRoutingStrategyValues ∧
    "provider-budget-routing" ∈ admissibleRoutingStrategyValues := by
  decide

/-- C2 counterexample: the `Other`/unclassified catch-all kind has no
configurable field in `RetryPolicy` (nor in `AllowedFailsPolicy`), so the
claim that every kind of the taxonomy has one fails at `ErrorKind.other`. -/
theorem no_retry_field_for_other_kind :
    retryFieldFor defaultRetryPolicy ErrorKind.other = none ∧
    allowedFailsFieldFor defaultAllowedFailsPolicy ErrorKind.other = none := by
  exact ⟨rfl, rfl⟩

/-- C2 (amended): for each of the six classified error kinds — BadRequest,
Authentication, Timeout, RateLimit, ContentPolicyViolation,
InternalServerError — `RetryPolicy` and `AllowedFailsPolicy` each declare a
configurable field for that kind, unset (`None`) by default; only the
`Other` catch-all has no field. -/
theorem classified_kinds_have_policy_fields (k : ErrorKind)
    (h : k ≠ ErrorKind.other) :
    retryFieldFor defaultRetryPolicy k = some none ∧
    allowedFailsFieldFor defaultAllowedFailsPolicy k = some none := by
  cases k <;> simp_all <;> exact ⟨rfl, rfl⟩

/-- C2 witness: the amended statement instantiated at the Timeout kind. -/
theorem classified_kinds_have_policy_fields_witness :
    retryFieldFor defaultRetryPolicy ErrorKind.timeout = some none ∧
    allowedFailsFieldFor defaultAllowedFailsPolicy ErrorKind.timeout = some none :=
  classified_kinds_have_policy_fields ErrorKind.timeout (by decide)

/-- C3: for every router id, model and bucket identifiers, formatting the
four `RouterCacheEnum` templates yields keys of the scheme
`{scope}:{router_id}:{model}:{window_kind}:{window_bucket}` with scope
`global_router`; the bucket component is the current-minute identifier for
the tpm and rpm kinds and the current-day identifier for tpd and rpd. -/
theorem router_cache_key_scheme (args : CacheKeyArgs) :
    pyFormat RouterCacheEnum.TPM.value args =
      some (specUsageKeyScheme "global_router" args.id args.model "tpm"
        args.current_minute) ∧
    pyFormat RouterCacheEnum.RPM.value args =
      some (specUsageKeyScheme "global_router" args.id args.model "rpm"
        args.current_minute) ∧
    pyFormat RouterCacheEnum.TPD.value args =
      some (specUsageKeyScheme "global_router" args.id args.model "tpd"
        args.current_day) ∧
    pyFormat RouterCacheEnum.RPD.value args =
      some (specUsageKeyScheme "global_router" args.id args.model "rpd"
        args.current_day) := by
  refine ⟨?_, ?_, ?_, ?_⟩ <;>
  · simp [pyFormat, RouterCacheEnum.value, parseFmt, parseFmtField, renderFmt,
      fmtLookup, specUsageKeyScheme]
    apply String.ext
    simp [String.data_append, List.append_assoc]

/-- Any string of the form `accounts/fireworks/models/…` starts with
`accounts/`. -/
theorem startsWith_accounts_of_prefixed (m : String) :
    pyStartsWith ("accounts/fireworks/models/" ++ m) "accounts/" = true := rfl

/-- C10: the Fireworks model-name normalization of `transform_request` is
idempotent: a name already starting with `accounts/` passes through
unchanged, any other name gets the `accounts/fireworks/models/` front
appended, and normalizing twice equals normalizing once. -/
theorem fireworksNormalizeModel_idempotent (m : String) :
    (pyStartsWith m "accounts/" = true → fireworksNormalizeModel m = m) ∧
    (pyStartsWith m "accounts/" = false →
      fireworksNormalizeModel m = "accounts/fireworks/models/" ++ m) ∧
    fireworksNormalizeModel (fireworksNormalizeModel m) =
      fireworksNormalizeModel m := by
  refine ⟨fun h => by simp [fireworksNormalizeModel, h],
          fun h => by simp [fireworksNormalizeModel, h], ?_⟩
  by_cases h : pyStartsWith m "accounts/" = true
  · simp [fireworksNormalizeModel, h]
  · have h' : pyStartsWith m "accounts/" = false := by
      revert h; cases pyStartsWith m "accounts/" <;> simp
    simp [fireworksNormalizeModel, h', startsWith_accounts_of_prefixed]

/-- C4: the no-deployments-available error value stores the requested
model, the cooling-down deployment list and the cooldown time, and its
message contains the text `No deployments available for selected model`. -/
theorem router_rate_limit_error_diagnostics (model : String) (ct : Float)
    (pre : Bool) (clist : List String) :
    (mkRouterRateLimitError model ct pre clist).model = model ∧
    (mkRouterRateLimitError model ct pre clist).cooldown_time = ct ∧
    (mkRouterRateLimitError model ct pre clist).cooldown_list = clist ∧
    strContains "No deployments available for selected model"
      (mkRouterRateLimitError model ct pre clist).message := by
  refine ⟨rfl, rfl, rfl, [],
    (", Try again in " ++ toString ct ++ " seconds. Passed model=" ++ model ++
      ". pre-call-checks=" ++ pyBoolStr pre ++ ", cooldown_list=" ++
      pyStrListRepr clist).data, ?_⟩
  simp [mkRouterRateLimitError, RouterErrors.value, String.data_append,
    List.append_assoc]

/-- Summing the counter values after one increment adds exactly one. -/
theorem sum_counterIncr (c : List (String × Nat)) (k : String) :
    ((counterIncr c k).map Prod.snd).sum = (c.map Prod.snd).sum + 1 := by
  induction c with
  | nil => simp [counterIncr]
  | cons hd tl ih =>
    obtain ⟨k', v⟩ := hd
    by_cases h : k' = k
    · simp [counterIncr, h]
      omega
    · simp [counterIncr, h, ih]
      omega

/-- Folding counter increments over a task list adds its length to the sum
of counts. -/
theorem sum_fold_counterIncr (l : List TaskInfo) (c : List (String × Nat)) :
    ((l.foldl (fun acc t => counterIncr acc t.name) c).map Prod.snd).sum =
      (c.map Prod.snd).sum + l.length := by
  induction l generalizing c with
  | nil => simp
  | cons hd tl ih =>
    simp [List.foldl, ih, sum_counterIncr]
    omega

/-- C5: `get_active_tasks_stats` returns the full, uncapped number of
active (not-done) tasks as `total_active_tasks`, while the per-name counts
in `by_name` sum to exactly `min(number of active tasks, 5000)` because
inspection stops at the `MAX_TASKS_TO_CHECK = 5000` ceiling. -/
theorem active_tasks_stats_cap (tasks : List TaskInfo) :
    (getActiveTasksStats tasks).1 = (tasks.filter (fun t => !t.done)).length ∧
    (((getActiveTasksStats tasks).2.map Prod.snd).sum =
      min ((tasks.filter (fun t => !t.done)).length) MAX_TASKS_TO_CHECK) := by
  refine ⟨rfl, ?_⟩
  simp [getActiveTasksStats, sum_fold_counterIncr, List.length_take]
  omega

/-- C6: when the raw adapter response body cannot be parsed as JSON,
`transform_response` fails with a `FireworksAIException` carrying the
original status code and containing the original response text in its
message, returning no `ModelResponse`; when the body parses, this error
branch is not taken. -/
theorem transform_response_parse_failure (raw : RawResponse)
    (tools : Option (List FWRequestTool)) (gen : Nat) :
    (∀ e, raw.parsedJson = .error e →
      transformResponse raw tools gen =
        .error (fireworksJsonDecodeException e raw) ∧
      (fireworksJsonDecodeException e raw).status_code = raw.status_code ∧
      strContains raw.text (fireworksJsonDecodeException e raw).message ∧
      (transformResponse raw tools gen).isOk = false) ∧
    (∀ cr, raw.parsedJson = .ok cr →
      (transformResponse raw tools gen).isOk = true) := by
  constructor
  · intro e he
    refine ⟨by simp [transformResponse, he], rfl, ?_, by simp [transformResponse, he, Except.isOk, Except.toBool]⟩
    refine ⟨("Unable to get json response - " ++ e ++
      ", Original Response: ").data, [], ?_⟩
    simp [fireworksJsonDecodeException, String.data_append, List.append_assoc]
  · intro cr hcr
    simp [transformResponse, hcr, Except.isOk, Except.toBool]

/-- C6 witness: a concrete unparsable response takes the error branch with
the original status code, and a concrete parsable response does not. -/
theorem transform_response_parse_failure_witness :
    (transformResponse
        (RawResponse.mk 502 "<html>bad gateway</html>" [("x", "y")]
          (.error "Expecting value")) none 0).isOk = false ∧
    (transformResponse
        (RawResponse.mk 200 "{}" []
          (.ok (CompletionResponse.mk none []))) none 0).isOk = true :=
  ⟨((transform_response_parse_failure
      (RawResponse.mk 502 "<html>bad gateway</html>" [("x", "y")]
        (.error "Expecting value")) none 0).1 "Expecting value" rfl).2.2.2,
   (transform_response_parse_failure
      (RawResponse.mk 200 "{}" [] (.ok (CompletionResponse.mk none [])))
      none 0).2 (CompletionResponse.mk none []) rfl⟩

/-- C7: `ModelInfo.__init__` always yields a string id: a supplied string
id is stored unchanged, a supplied integer id is converted to its string
form, an absent id is replaced by a freshly generated UUID string, and two
constructions without an id receive distinct generated ids. -/
theorem model_info_id_always_string (s : String) (i : Int) (gen : Nat) :
    (ModelInfo.init (some (Sum.inl s)) gen).1.id = s ∧
    (ModelInfo.init (some (Sum.inr i)) gen).1.id = toString i ∧
    (ModelInfo.init none gen).1.id = uuid4String gen ∧
    (ModelInfo.init none gen).1.id ≠
      (ModelInfo.init none (ModelInfo.init none gen).2).1.id := by
  refine ⟨rfl, rfl, rfl, ?_⟩
  intro h
  have hlen := congrArg (fun t => t.data.length) h
  simp [ModelInfo.init, uuid4String] at hlen

/-- C8: `Deployment.__init__` copies each special custom-pricing parameter
that is non-`None` on `litellm_params` into `model_info` under the same
name, and leaves the `model_info` field as given when the parameter is
`None` or absent. -/
theorem deployment_copies_custom_pricing (name : String)
    (lp : LiteLLM_Params) (mi : ModelInfo) (gen : Nat) :
    (Deployment.init name lp (some mi) gen).1.model_info.input_cost_per_token =
      (if lp.input_cost_per_token.isSome then lp.input_cost_per_token
       else mi.input_cost_per_token) ∧
    (Deployment.init name lp (some mi) gen).1.model_info.output_cost_per_token =
      (if lp.output_cost_per_token.isSome then lp.output_cost_per_token
       else mi.output_cost_per_token) ∧
    (Deployment.init name lp (some mi) gen).1.model_info.input_cost_per_character =
      (if lp.input_cost_per_character.isSome then lp.input_cost_per_character
       else mi.input_cost_per_character) ∧
    (Deployment.init name lp (some mi) gen).1.model_info.output_cost_per_character =
      (if lp.output_cost_per_character.isSome then lp.output_cost_per_character
       else mi.output_cost_per_character) := by
  rcases h1 : lp.input_cost_per_token with _ | v1 <;>
  rcases h2 : lp.output_cost_per_token with _ | v2 <;>
  rcases h3 : lp.input_cost_per_character with _ | v3 <;>
  rcases h4 : lp.output_cost_per_character with _ | v4 <;>
  simp [Deployment.init, SPECIAL_MODEL_INFO_PARAMS, copySpecialParam,
    h1, h2, h3, h4]

/-- C9: `ModelGroupInfo.__init__` stores a definite boolean for every
`bool`-typed capability flag: a flag supplied as `None` or omitted becomes
`False`, a supplied boolean is kept. -/
theorem model_group_info_bool_defaults (data : ModelGroupInfoData) :
    (ModelGroupInfo.init data).supports_parallel_function_calling =
      data.supports_parallel_function_calling.getD false ∧
    (ModelGroupInfo.init data).supports_vision =
      data.supports_vision.getD false ∧
    (ModelGroupInfo.init data).supports_web_search =
      data.supports_web_search.getD false ∧
    (ModelGroupInfo.init data).supports_url_context =
      data.supports_url_context.getD false ∧
    (ModelGroupInfo.init data).supports_reasoning =
      data.supports_reasoning.getD false ∧
    (ModelGroupInfo.init data).supports_function_calling =
      data.supports_function_calling.getD false := by
  obtain ⟨mg, prov, tpm, rpm, tpd, rpd, mode, b1, b2, b3, b4, b5, b6⟩ := data
  refine ⟨?_, ?_, ?_, ?_, ?_, ?_⟩
  · cases b1 <;> rfl
  · cases b2 <;> rfl
  · cases b3 <;> rfl
  · cases b4 <;> rfl
  · cases b5 <;> rfl
  · cases b6 <;> rfl

/-- C10 witness: normalization at concrete models, discharging both
hypotheses. -/
theorem fireworksNormalizeModel_idempotent_witness :
    fireworksNormalizeModel "accounts/acme/models/m1" = "accounts/acme/models/m1" ∧
    fireworksNormalizeModel "llama-v3" = "accounts/fireworks/models/llama-v3" :=
  ⟨(fireworksNormalizeModel_idempotent "accounts/acme/models/m1").1 rfl,
   (fireworksNormalizeModel_idempotent "llama-v3").2.1 rfl⟩

end LitellmSpec
